import Mathlib

/-!
Verification development for the `edit-shipping-lines` HTTP relay
(`src/server.js`).  The service validates an inbound request (storefront
domain, optional shared secret, order reference, target shipping title)
and then drives a five-step Shopify order-edit sequence:
fetch order → begin edit → add shipping line → remove old line (replace
mode only) → commit.

The embedding below is a shallow, executable translation of the first
`/flow/edit-shipping-lines` handler of `src/server.js` (lines 163-317)
together with the helpers it uses (`isValidShop`, `tscEq`, `toOrderGid`,
`assertUserErrors`, `errRes`).  The remote GraphQL gateway
(`shopifyGraphQL`) is modelled as an oracle (`Env`): for each of the five
calls the environment supplies either a thrown gateway error or the
parsed response data, exactly the two outcomes the JavaScript function
can produce.  The handler is a pure function from the request and that
oracle to the HTTP response together with the ordered trace of gateway
invocations it performed.

JavaScript runtime primitives that the handler relies on are modelled
explicitly and are named after their JS counterparts: `parseFloat`
(IEEE-754 doubles idealised as exact rationals; `none` stands for a
non-finite result, i.e. NaN or ±Infinity, which is precisely what the
`Number.isFinite` guards in the source test for), `jsTrim`
(`String.prototype.trim`), `strStarts` (`String.prototype.startsWith`),
UTF-8 encoding of strings (`Buffer.from(s, 'utf8')`), and
`crypto.timingSafeEqual` (a full-traversal byte comparison, `ctScan`,
that also counts the byte comparisons it performs so that its cost can
be stated).
-/

namespace EditShip

/-- `hasLead p cs` is true when the list `p` is a leading segment of `cs`.
Model of `String.prototype.startsWith` at the character-list level. -/
def hasLead : List Char → List Char → Bool
  | [], _ => true
  | _ :: _, [] => false
  | p :: ps, c :: cs => p == c && hasLead ps cs

/-- `containsSeg p cs` is true when `p` occurs as a contiguous segment of
`cs`. -/
def containsSeg (p : List Char) : List Char → Bool
  | [] => p.isEmpty
  | c :: cs => hasLead p (c :: cs) || containsSeg p cs

/-- Substring occurrence test on strings. -/
def strContains (s pat : String) : Bool :=
  containsSeg pat.data s.data

/-- Model of `s.startsWith(pre)` from the source. -/
def strStarts (s pre : String) : Bool :=
  hasLead pre.data s.data

/-- Whitespace characters recognised by the `parseFloat` / `trim` models. -/
def isSpaceChar (c : Char) : Bool :=
  c == ' ' || c == '\t' || c == '\n' || c == '\r'

/-- Model of `String.prototype.trim`, used by the
`targetShippingTitle` check in the handler. -/
def jsTrim (s : String) : String :=
  ⟨((s.data.dropWhile isSpaceChar).reverse.dropWhile isSpaceChar).reverse⟩

/-- Numeric value of a list of decimal digit characters. -/
def digitsVal (ds : List Char) : Nat :=
  ds.foldl (fun a c => 10 * a + (c.toNat - 48)) 0

/-- Model of the JavaScript `parseFloat` builtin as used by the handler:
leading whitespace is skipped, an optional sign is read, and the longest
decimal-literal head (integer part, optional fraction, optional
exponent) is converted.  IEEE-754 doubles are idealised as exact
rationals; the value is assembled as one exact fraction
`signedMantissa·10^e / 10^(fraction length)` via `mkRat`.  `none`
models a non-finite result (NaN when no digits can be read, ±Infinity
for an `Infinity` literal), which is exactly the condition the
source's `Number.isFinite` guards reject. -/
def parseFloat (s : String) : Option Rat :=
  let cs := s.data.dropWhile isSpaceChar
  let neg := match cs with | '-' :: _ => true | _ => false
  let cs1 := match cs with | '-' :: r => r | '+' :: r => r | _ => cs
  if hasLead ("Infinity".data) cs1 then none
  else
    let ip := cs1.takeWhile Char.isDigit
    let r1 := cs1.dropWhile Char.isDigit
    let fp := match r1 with | '.' :: t => t.takeWhile Char.isDigit | _ => []
    let r2 := match r1 with | '.' :: t => t.dropWhile Char.isDigit | _ => r1
    if ip.isEmpty && fp.isEmpty then none
    else
      let mantNum : Int := ((digitsVal ip * 10 ^ fp.length + digitsVal fp : Nat) : Int)
      let signedNum : Int := if neg then -mantNum else mantNum
      let expPart : Bool × List Char :=
        match r2 with
        | 'e' :: t | 'E' :: t =>
          let en := match t with | '-' :: _ => true | _ => false
          let t1 := match t with | '-' :: u => u | '+' :: u => u | _ => t
          (en, t1.takeWhile Char.isDigit)
        | _ => (false, [])
      let e := digitsVal expPart.2
      if expPart.1 then some (mkRat signedNum (10 ^ fp.length * 10 ^ e))
      else some (mkRat (signedNum * (10 : Int) ^ e) (10 ^ fp.length))

/-- UTF-8 encoding of one character, as a list of byte values. -/
def utf8Char (c : Char) : List Nat :=
  let n := c.toNat
  if n < 0x80 then [n]
  else if n < 0x800 then [0xC0 + n / 64, 0x80 + n % 64]
  else if n < 0x10000 then
    [0xE0 + n / 4096, 0x80 + (n / 64) % 64, 0x80 + n % 64]
  else
    [0xF0 + n / 262144, 0x80 + (n / 4096) % 64, 0x80 + (n / 64) % 64, 0x80 + n % 64]

/-- UTF-8 encoding of a string: model of `Buffer.from(s, 'utf8')`. -/
def utf8Bytes (s : String) : List Nat :=
  s.data.foldr (fun c acc => utf8Char c ++ acc) []

/-- Model of `crypto.timingSafeEqual` on two byte lists: a comparison
that never exits early.  The first component is `true` when a
difference (in content or length) was found; the second component
counts the byte comparisons performed, which is the cost model used for
the constant-time property: the loop always touches every position of
the common length, regardless of where the first mismatch sits. -/
def ctScan : List Nat → List Nat → Bool × Nat
  | [], [] => (false, 0)
  | [], _ :: _ => (true, 0)
  | _ :: _, [] => (true, 0)
  | a :: as, b :: bs =>
    let r := ctScan as bs
    ((a != b) || r.1, r.2 + 1)

/-- `tscEq` from `src/server.js` (lines 39-43): UTF-8 encode both
operands (`String(a || '')` turns an absent header into the empty
string, so the function is total and never throws), require equal byte
lengths, and compare with the constant-time scan.  The length guard
short-circuits, mirroring the `&&` in the source which protects
`crypto.timingSafeEqual` from its unequal-length exception. -/
def tscEq (a : Option String) (b : String) : Bool :=
  let A := utf8Bytes (a.getD "")
  let B := utf8Bytes b
  A.length == B.length && !(ctScan A B).1

/-- Number of byte comparisons performed by `tscEq`: zero when the
length guard fails, otherwise the full scan count. -/
def tscEqCost (a : Option String) (b : String) : Nat :=
  let A := utf8Bytes (a.getD "")
  let B := utf8Bytes b
  if A.length = B.length then (ctScan A B).2 else 0

/-- Characters allowed in the shop-name part of a storefront domain:
the character class `[a-z0-9-]` of the source regex. -/
def shopChar (c : Char) : Bool :=
  ('a' ≤ c && c ≤ 'z') || ('0' ≤ c && c ≤ '9') || c == '-'

/-- `isValidShop` from `src/server.js` (line 37): the regex
`^[a-z0-9-]+\.myshopify\.com$` holds exactly when the string is a
non-empty run of `[a-z0-9-]` characters followed by the literal tail
`.myshopify.com` (the class contains no dot, so the decomposition at
the length boundary is the only possible one). -/
def isValidShop (s : String) : Bool :=
  let cs := s.data
  let tail := ".myshopify.com".data
  decide (tail.length < cs.length) &&
  (cs.drop (cs.length - tail.length) == tail) &&
  (cs.take (cs.length - tail.length)).all shopChar

/-- The canonical order global-identifier head used by `toOrderGid`. -/
def gidRoot : String := "gid://shopify/Order/"

/-- `toOrderGid` from `src/server.js` (lines 67-73).  `none` models the
JS `null` both for an absent input (`String(x || '')` gives `""`) and
for a candidate that is neither already canonical nor all digits. -/
def toOrderGid (v : Option String) : Option String :=
  let s := v.getD ""
  if s = "" then none
  else if strStarts s gidRoot then some s
  else if s.data.all Char.isDigit then some (gidRoot ++ s)
  else none

deriving instance DecidableEq for Except

/-- One region entry of the `regions` table (lines 30-34): code,
storefront domain, admin token, optional Flow shared secret.  Absent
environment variables are `none`. -/
structure Region where
  code : String
  shop : String
  adminToken : Option String
  flowSecret : Option String
deriving DecidableEq

/-- `byShop` lookup (line 36): JS `new Map(pairs)` keeps the last entry
for a duplicated key, hence the left fold that lets later regions win. -/
def byShop (rs : List Region) (d : String) : Option Region :=
  rs.foldl (fun acc r => if r.shop = d then some r else acc) none

/-- One entry of a mutation payload's `userErrors` list. -/
structure UserError where
  field : List String
  message : String
deriving DecidableEq

/-- A shipping line as selected by the `GetOrder` query: remote id,
title, and the `originalPriceSet?.shopMoney?.amount` chain collapsed to
an optional amount string (`none` when any link of the optional chain
is absent). -/
structure ShippingLine where
  id : String
  title : String
  amount : Option String
deriving DecidableEq

/-- The order data returned by the fetch step.  A GraphQL `null`
`shippingLines` connection is modelled as the empty list, which is
observationally equal under the source's
`order.shippingLines?.nodes?.[0] || null`. -/
structure Order where
  id : String
  name : String
  shippingLines : List ShippingLine
deriving DecidableEq

/-- Parsed payload of one mutating call: the
`calculatedOrder { id }` handle (for `orderEditBegin`) and the
`userErrors` list.  A `null` payload object is `⟨none, []⟩`, matching
`payload?.userErrors || []` and `payload?.calculatedOrder?.id`. -/
structure MutPayload where
  calcId : Option String
  userErrors : List UserError
deriving DecidableEq

/-- Outcome of one `shopifyGraphQL` invocation: either the function
threw (missing token, timeout, HTTP failure, non-JSON body, top-level
`errors` list — all collapsed to the thrown message) or it returned the
parsed `data`. -/
inductive GwRes (α : Type) where
  | thrown (msg : String)
  | data (val : α)
deriving DecidableEq

/-- The remote oracle for one request: the outcome of each of the five
possible gateway calls, in the order the handler can issue them. -/
structure Env where
  fetchResp : GwRes (Option Order)
  beginResp : GwRes MutPayload
  addResp : GwRes MutPayload
  removeResp : GwRes MutPayload
  commitResp : GwRes MutPayload
deriving DecidableEq

/-- The request body of `POST /flow/edit-shipping-lines` plus the
`X-Flow-Secret` header.  `none` models an absent (or `null`) JSON
field; `targetShippingPrice` carries the string form of the supplied
JSON value, which is what `parseFloat` coerces it to. -/
structure EditRequest where
  shopDomain : Option String
  orderGid : Option String
  orderId : Option String
  targetShippingTitle : Option String
  targetShippingPrice : Option String
  dryRun : Bool
  headerSecret : Option String
deriving DecidableEq

/-- The `from` object of a success response: `{id, title, price}`. -/
structure LineOut where
  id : String
  title : String
  price : Rat
deriving DecidableEq

/-- The `to` object of a success response: `{title, price}`. -/
structure ToOut where
  title : String
  price : Rat
deriving DecidableEq

/-- A success response body.  The live-run body carries no `dryRun`
key, modelled as `dryRun := false`. -/
structure OkBody where
  dryRun : Bool
  shopDomain : String
  orderName : String
  mode : String
  fromLine : Option LineOut
  toLine : ToOut
deriving DecidableEq

/-- An HTTP response of the endpoint: an error `{status, error,
details?}` or a 200 success body. -/
inductive HResp where
  | err (status : Nat) (msg : String) (details : Option String)
  | ok (body : OkBody)
deriving DecidableEq

/-- One gateway invocation as recorded in the handler's trace, with the
variables the source passes to each GraphQL document. -/
inductive Step where
  | fetchOrder (gid : String)
  | beginEdit (gid : String)
  | addLine (calcId : String) (title : String) (price : Rat)
  | removeLine (calcId : String) (lineId : String)
  | commitEdit (calcId : String)
deriving DecidableEq

/-- Whether a gateway call mutates the remote order (everything but the
initial fetch). -/
def isMutating : Step → Bool
  | .fetchOrder _ => false
  | _ => true

/-- `errRes` from `src/server.js` (lines 52-56): the `details` field is
attached only when the debug flag is set and the value is truthy (a
present, non-empty string). -/
def errRes (debug : Bool) (code : Nat) (msg : String) (details : Option String) : HResp :=
  .err code msg (if debug = true ∧ details ≠ none ∧ details ≠ some "" then details else none)

/-- The catch-all of the handler (lines 313-316): any thrown error
becomes `500 Server error`, with `e.stack || String(e)` as candidate
details.  Both the stack and `String(e)` render the error's message
after an `Error: ` head, which is what this model keeps. -/
def serverError (debug : Bool) (m : String) : HResp :=
  errRes debug 500 "Server error" (some ("Error: " ++ m))

/-- Model of `JSON.stringify` on a `userErrors` list, used only to
build the thrown message of `assertUserErrors`. -/
def serializeErrs (es : List UserError) : String :=
  "[" ++ String.intercalate "," (es.map (fun e =>
    "\x7b\"field\":[" ++ String.intercalate "," (e.field.map (fun f => "\"" ++ f ++ "\"")) ++
    "],\"message\":\"" ++ e.message ++ "\"\x7d")) ++ "]"

/-- The message of the error thrown by `assertUserErrors` (lines
99-102): the step name followed by the serialized error list. -/
def userErrMsg (stepName : String) (errs : List UserError) : String :=
  stepName ++ " userErrors: " ++ serializeErrs errs

/-- Response produced when `assertUserErrors` fires for `stepName`: the
thrown error travels to the catch-all and surfaces as a generic 500. -/
def userErrorsRes (debug : Bool) (stepName : String) (errs : List UserError) : HResp :=
  serverError debug (userErrMsg stepName errs)

/-- The price-determination block (lines 219-231): with a current line,
parse its amount and reject a non-finite value with 500; without one,
parse the caller's optional price (defaulting to 0) and reject a
non-finite value with 400.  Errors carry `(status, message, details)`
exactly as passed to `errRes` in the source. -/
def computePrice (current : Option ShippingLine) (callerPrice : Option String) :
    Except (Nat × String × Option String) Rat :=
  match current with
  | some line =>
    match parseFloat (line.amount.getD "") with
    | some p => .ok p
    | none => .error (500, "Invalid existing shipping price", line.amount)
  | none =>
    match callerPrice with
    | none => .ok 0
    | some raw =>
      match parseFloat raw with
      | some p => .ok p
      | none => .error (400, "Invalid targetShippingPrice", some raw)

/-- Step 5 of the sequence (lines 293-312): commit the edit session and
return the success body, or surface a thrown error / non-empty
`userErrors` list. -/
def step5Commit (debug : Bool) (env : Env) (cid : String) (body : OkBody)
    (t : List Step) : HResp × List Step :=
  let t' := t ++ [Step.commitEdit cid]
  match env.commitResp with
  | .thrown m => (serverError debug m, t')
  | .data cp =>
    if cp.userErrors.length ≠ 0 then
      (userErrorsRes debug "orderEditCommit" cp.userErrors, t')
    else (.ok body, t')

/-- Step 4 of the sequence (lines 275-291): remove the old shipping
line, but only when a current line existed. -/
def step4Remove (debug : Bool) (env : Env) (cid : String)
    (current : Option ShippingLine) (body : OkBody) (t : List Step) : HResp × List Step :=
  match current with
  | none => step5Commit debug env cid body t
  | some line =>
    let t' := t ++ [Step.removeLine cid line.id]
    match env.removeResp with
    | .thrown m => (serverError debug m, t')
    | .data rp =>
      if rp.userErrors.length ≠ 0 then
        (userErrorsRes debug "orderEditRemoveShippingLine" rp.userErrors, t')
      else step5Commit debug env cid body t'

/-- Step 3 of the sequence (lines 259-273): add the new shipping line
with the target title and the computed price. -/
def step3Add (debug : Bool) (env : Env) (cid : String) (title : String) (price : Rat)
    (current : Option ShippingLine) (body : OkBody) (t : List Step) : HResp × List Step :=
  let t' := t ++ [Step.addLine cid title price]
  match env.addResp with
  | .thrown m => (serverError debug m, t')
  | .data ap =>
    if ap.userErrors.length ≠ 0 then
      (userErrorsRes debug "orderEditAddShippingLine" ap.userErrors, t')
    else step4Remove debug env cid current body t'

/-- Step 2 of the sequence (lines 245-257): begin the edit session,
check its `userErrors`, then require the `calculatedOrder.id` handle. -/
def step2Begin (debug : Bool) (env : Env) (gid : String) (title : String) (price : Rat)
    (current : Option ShippingLine) (body : OkBody) (t : List Step) : HResp × List Step :=
  let t' := t ++ [Step.beginEdit gid]
  match env.beginResp with
  | .thrown m => (serverError debug m, t')
  | .data bp =>
    if bp.userErrors.length ≠ 0 then
      (userErrorsRes debug "orderEditBegin" bp.userErrors, t')
    else
      match bp.calcId with
      | none => (errRes debug 500 "Missing calculatedOrderId" none, t')
      | some cid => step3Add debug env cid title price current body t'

/-- The orchestration after validation (lines 193-312): fetch the
order, determine mode and price, short-circuit on dry run, then run the
begin/add/remove/commit sequence. -/
def runEdit (debug : Bool) (req : EditRequest) (env : Env) (gid : String) :
    HResp × List Step :=
  let t0 := [Step.fetchOrder gid]
  match env.fetchResp with
  | .thrown m => (serverError debug m, t0)
  | .data none => (errRes debug 404 "Order not found" none, t0)
  | .data (some order) =>
    let current := order.shippingLines.head?
    match computePrice current req.targetShippingPrice with
    | .error e => (errRes debug e.1 e.2.1 e.2.2, t0)
    | .ok price =>
      let title := req.targetShippingTitle.getD ""
      let mode := if current.isSome then "replace" else "add"
      let fromL := current.map (fun l => LineOut.mk l.id l.title price)
      let toL := ToOut.mk title price
      if req.dryRun = true then
        (.ok ⟨true, req.shopDomain.getD "", order.name, mode, fromL, toL⟩, t0)
      else
        step2Begin debug env gid title price current
          ⟨false, req.shopDomain.getD "", order.name, mode, fromL, toL⟩ t0

/-- Validation of the order reference and the target title (lines
186-191), then the orchestration. -/
def postAuth (debug : Bool) (req : EditRequest) (env : Env) : HResp × List Step :=
  match toOrderGid req.orderGid <|> toOrderGid req.orderId with
  | none => (errRes debug 400 "Missing/invalid orderGid/orderId" none, [])
  | some gid =>
    if jsTrim (req.targetShippingTitle.getD "") = "" then
      (errRes debug 400 "Missing targetShippingTitle" none, [])
    else runEdit debug req env gid

/-- The full `POST /flow/edit-shipping-lines` handler (lines 163-317):
domain validation, region resolution, optional shared-secret check,
then `postAuth`.  The result pairs the HTTP response with the ordered
trace of gateway invocations. -/
def handler (debug : Bool) (rs : List Region) (req : EditRequest) (env : Env) :
    HResp × List Step :=
  let dom := req.shopDomain.getD ""
  if isValidShop dom = false then
    (errRes debug 400 "Missing/invalid shopDomain" req.shopDomain, [])
  else
    match byShop rs dom with
    | none => (errRes debug 400 ("Shop not recognized: " ++ dom) none, [])
    | some region =>
      let sec := region.flowSecret.getD ""
      if sec ≠ "" ∧ tscEq req.headerSecret sec = false then
        (errRes debug 401 "Bad X-Flow-Secret" none, [])
      else postAuth debug req env

/-- Whether any string field of a response mentions `pat` as a
substring: used to state that a response does (or does not) make a step
name visible. -/
def respMentions (r : HResp) (pat : String) : Bool :=
  match r with
  | .err _ msg d =>
    strContains msg pat ||
    (match d with | none => false | some t => strContains t pat)
  | .ok b =>
    strContains b.shopDomain pat || strContains b.orderName pat ||
    strContains b.mode pat || strContains b.toLine.title pat

/-! Concrete fixtures used by counterexamples and witnesses. -/

/-- A one-region registry without a Flow secret. -/
def cRegs : List Region := [⟨"UK", "shop.myshopify.com", some "tok", none⟩]

/-- A one-region registry whose region has the Flow secret `s3cret`. -/
def sRegs : List Region := [⟨"UK", "shop.myshopify.com", some "tok", some "s3cret"⟩]

/-- A well-formed live (non-dry-run) replace request. -/
def cReq : EditRequest :=
  ⟨some "shop.myshopify.com", some "gid://shopify/Order/1", none,
   some "DHL_PAKET::Standard", none, false, none⟩

/-- The same request with `dryRun` set. -/
def cReqDry : EditRequest :=
  ⟨some "shop.myshopify.com", some "gid://shopify/Order/1", none,
   some "DHL_PAKET::Standard", none, true, none⟩

/-- A request with a non-matching storefront domain. -/
def cReqBadDom : EditRequest :=
  ⟨some "evil.com", some "gid://shopify/Order/1", none,
   some "DHL_PAKET::Standard", none, false, none⟩

/-- A request that would fail order-reference and title validation and
also carries a wrong `X-Flow-Secret` header. -/
def cReqWrongSecret : EditRequest :=
  ⟨some "shop.myshopify.com", some "not-a-gid!", none,
   some "  ", none, false, some "wrong!"⟩

/-- A request whose two order-reference candidates are both invalid. -/
def cReqBadRefs : EditRequest :=
  ⟨some "shop.myshopify.com", some "x!", some "y!",
   some "DHL_PAKET::Standard", none, false, none⟩

/-- A request whose `orderGid` carries the canonical head followed by
non-digits. -/
def cReqGidAbc : EditRequest :=
  ⟨some "shop.myshopify.com", some "gid://shopify/Order/abc", none,
   some "DHL_PAKET::Standard", none, false, none⟩

/-- A request with an unparseable caller-supplied price. -/
def cReqBadCallerPrice : EditRequest :=
  ⟨some "shop.myshopify.com", some "gid://shopify/Order/1", none,
   some "DHL_PAKET::Standard", some "nope", false, none⟩

/-- An order carrying one shipping line titled `Standard` at `5.00`. -/
def cOrder : Order :=
  ⟨"gid://shopify/Order/1", "#1001", [⟨"sl1", "Standard", some "5.00"⟩]⟩

/-- An order with no shipping lines. -/
def cOrderNoLines : Order := ⟨"gid://shopify/Order/1", "#1001", []⟩

/-- An order whose existing shipping line has an unparseable amount. -/
def cOrderBadPrice : Order :=
  ⟨"gid://shopify/Order/1", "#1001", [⟨"sl1", "Standard", some "oops"⟩]⟩

/-- A remote oracle where every call succeeds cleanly. -/
def cEnvOk : Env :=
  ⟨.data (some cOrder), .data ⟨some "calc1", []⟩, .data ⟨none, []⟩,
   .data ⟨none, []⟩, .data ⟨none, []⟩⟩

/-- A remote oracle whose `orderEditBegin` payload carries one user
error. -/
def cEnvBeginErr : Env :=
  ⟨.data (some cOrder), .data ⟨none, [⟨["x"], "boom"⟩]⟩, .data ⟨none, []⟩,
   .data ⟨none, []⟩, .data ⟨none, []⟩⟩

/-- A remote oracle whose `orderEditBegin` payload is clean but carries
no `calculatedOrder.id` handle. -/
def cEnvNoCalc : Env :=
  ⟨.data (some cOrder), .data ⟨none, []⟩, .data ⟨none, []⟩,
   .data ⟨none, []⟩, .data ⟨none, []⟩⟩

/-- A clean oracle for the add-mode order without shipping lines. -/
def cEnvOkNoLines : Env :=
  ⟨.data (some cOrderNoLines), .data ⟨some "calc1", []⟩, .data ⟨none, []⟩,
   .data ⟨none, []⟩, .data ⟨none, []⟩⟩

/-- A clean oracle for the order with the unparseable existing price. -/
def cEnvBadPrice : Env :=
  ⟨.data (some cOrderBadPrice), .data ⟨some "calc1", []⟩, .data ⟨none, []⟩,
   .data ⟨none, []⟩, .data ⟨none, []⟩⟩

/-! Helper lemmas about the JS-primitive models. -/

theorem hasLead_append (p t : List Char) : hasLead p (p ++ t) = true := by
  induction p with
  | nil => rfl
  | cons c cs ih => simp [hasLead, ih]

theorem hasLead_iff_append : ∀ (p cs : List Char), hasLead p cs = true ↔ ∃ t, cs = p ++ t
  | [], cs => by simp [hasLead]
  | p :: ps, [] => by simp [hasLead]
  | p :: ps, c :: cs => by
    simp only [hasLead, Bool.and_eq_true, beq_iff_eq, hasLead_iff_append ps cs,
      List.cons_append, List.cons.injEq]
    constructor
    · rintro ⟨rfl, t, rfl⟩; exact ⟨t, rfl, rfl⟩
    · rintro ⟨t, rfl, rfl⟩; exact ⟨rfl, t, rfl⟩

theorem containsSeg_self_append (p post : List Char) : containsSeg p (p ++ post) = true := by
  cases hp : p ++ post with
  | nil =>
    have hnil : p = [] := by
      cases p with
      | nil => rfl
      | cons a as => simp at hp
    subst hnil
    simp [containsSeg]
  | cons c cs =>
    rw [containsSeg, ← hp, hasLead_append, Bool.true_or]

theorem containsSeg_mid (pre p post : List Char) :
    containsSeg p (pre ++ (p ++ post)) = true := by
  induction pre with
  | nil => simpa using containsSeg_self_append p post
  | cons a pre ih => rw [List.cons_append, containsSeg, ih, Bool.or_true]

theorem ctScan_fst_eq_false : ∀ (A B : List Nat), (ctScan A B).1 = false ↔ A = B
  | [], [] => by simp [ctScan]
  | [], b :: bs => by simp [ctScan]
  | a :: as, [] => by simp [ctScan]
  | a :: as, b :: bs => by
    simp [ctScan, ctScan_fst_eq_false as bs]

theorem ctScan_snd_eq : ∀ (A B : List Nat), (ctScan A B).2 = min A.length B.length
  | [], [] => by simp [ctScan]
  | [], b :: bs => by simp [ctScan]
  | a :: as, [] => by simp [ctScan]
  | a :: as, b :: bs => by
    simp [ctScan, ctScan_snd_eq as bs, Nat.succ_min_succ]

theorem tscEq_iff_bytes (a : Option String) (b : String) :
    tscEq a b = true ↔ utf8Bytes (a.getD "") = utf8Bytes b := by
  unfold tscEq
  simp only [Bool.and_eq_true, beq_iff_eq, Bool.not_eq_true']
  rw [ctScan_fst_eq_false]
  constructor
  · rintro ⟨-, h⟩; exact h
  · intro h; exact ⟨by rw [h], h⟩

/-! Helper lemmas reducing the handler under validation hypotheses. -/

theorem handler_eq_postAuth (debug : Bool) (rs : List Region) (req : EditRequest) (env : Env)
    (dom : String) (region : Region)
    (hdom : req.shopDomain = some dom) (hv : isValidShop dom = true)
    (hreg : byShop rs dom = some region)
    (hsec : region.flowSecret.getD "" = "" ∨
      tscEq req.headerSecret (region.flowSecret.getD "") = true) :
    handler debug rs req env = postAuth debug req env := by
  unfold handler
  rw [hdom]
  simp only [Option.getD_some, hv, hreg]
  rcases hsec with h | h <;> simp [h]

theorem postAuth_eq_runEdit (debug : Bool) (req : EditRequest) (env : Env) (gid : String)
    (hgid : (toOrderGid req.orderGid <|> toOrderGid req.orderId) = some gid)
    (htitle : jsTrim (req.targetShippingTitle.getD "") ≠ "") :
    postAuth debug req env = runEdit debug req env gid := by
  unfold postAuth
  rw [hgid]
  simp [htitle]

theorem handler_eq_runEdit (debug : Bool) (rs : List Region) (req : EditRequest) (env : Env)
    (dom : String) (region : Region) (gid : String)
    (hdom : req.shopDomain = some dom) (hv : isValidShop dom = true)
    (hreg : byShop rs dom = some region)
    (hsec : region.flowSecret.getD "" = "" ∨
      tscEq req.headerSecret (region.flowSecret.getD "") = true)
    (hgid : (toOrderGid req.orderGid <|> toOrderGid req.orderId) = some gid)
    (htitle : jsTrim (req.targetShippingTitle.getD "") ≠ "") :
    handler debug rs req env = runEdit debug req env gid := by
  rw [handler_eq_postAuth debug rs req env dom region hdom hv hreg hsec,
    postAuth_eq_runEdit debug req env gid hgid htitle]

theorem toOrderGid_of_strStarts (s : String) (h : strStarts s gidRoot = true) :
    toOrderGid (some s) = some s := by
  have hs : s ≠ "" := by
    intro he
    subst he
    exact absurd h (by decide)
  simp [toOrderGid, hs, h]

theorem toOrderGid_of_digits (s : String) (hne : s ≠ "")
    (hdig : s.data.all Char.isDigit = true) :
    toOrderGid (some s) = some (gidRoot ++ s) := by
  have hfalse : strStarts s gidRoot = false := by
    rw [Bool.eq_false_iff]
    intro hx
    rw [strStarts, hasLead_iff_append] at hx
    obtain ⟨t, ht⟩ := hx
    rw [ht, List.all_append, Bool.and_eq_true] at hdig
    exact absurd hdig.1 (by decide)
  simp [toOrderGid, hne, hfalse, hdig]

theorem step5Commit_trace (debug : Bool) (env : Env) (cid : String) (body : OkBody)
    (t : List Step) : ∃ l, (step5Commit debug env cid body t).2 = t ++ l := by
  unfold step5Commit
  rcases env.commitResp with m | cp
  · exact ⟨_, rfl⟩
  · dsimp only
    split
    · exact ⟨_, rfl⟩
    · exact ⟨_, rfl⟩

theorem step4Remove_trace (debug : Bool) (env : Env) (cid : String)
    (current : Option ShippingLine) (body : OkBody) (t : List Step) :
    ∃ l, (step4Remove debug env cid current body t).2 = t ++ l := by
  unfold step4Remove
  rcases current with _ | line
  · exact step5Commit_trace debug env cid body t
  · rcases env.removeResp with m | rp
    · exact ⟨_, rfl⟩
    · dsimp only
      split
      · exact ⟨_, rfl⟩
      · obtain ⟨l, hl⟩ := step5Commit_trace debug env cid body (t ++ [Step.removeLine cid line.id])
        exact ⟨_, by rw [hl, List.append_assoc]⟩

theorem step3Add_trace (debug : Bool) (env : Env) (cid : String) (title : String)
    (price : Rat) (current : Option ShippingLine) (body : OkBody) (t : List Step) :
    ∃ l, (step3Add debug env cid title price current body t).2 = t ++ l := by
  unfold step3Add
  rcases env.addResp with m | ap
  · exact ⟨_, rfl⟩
  · dsimp only
    split
    · exact ⟨_, rfl⟩
    · obtain ⟨l, hl⟩ := step4Remove_trace debug env cid current body
        (t ++ [Step.addLine cid title price])
      exact ⟨_, by rw [hl, List.append_assoc]⟩

theorem step2Begin_trace (debug : Bool) (env : Env) (gid : String) (title : String)
    (price : Rat) (current : Option ShippingLine) (body : OkBody) (t : List Step) :
    ∃ l, (step2Begin debug env gid title price current body t).2 = t ++ l := by
  unfold step2Begin
  rcases env.beginResp with m | bp
  · exact ⟨_, rfl⟩
  · dsimp only
    split
    · exact ⟨_, rfl⟩
    · rcases bp.calcId with _ | cid
      · exact ⟨_, rfl⟩
      · obtain ⟨l, hl⟩ := step3Add_trace debug env cid title price current body
          (t ++ [Step.beginEdit gid])
        exact ⟨_, by rw [hl, List.append_assoc]⟩

theorem runEdit_trace_shape (debug : Bool) (req : EditRequest) (env : Env) (gid : String) :
    ∃ rest, (runEdit debug req env gid).2 = Step.fetchOrder gid :: rest := by
  unfold runEdit
  rcases env.fetchResp with m | o
  · exact ⟨_, rfl⟩
  · rcases o with _ | order
    · exact ⟨_, rfl⟩
    · dsimp only
      split
      · exact ⟨_, rfl⟩
      · split
        · exact ⟨_, rfl⟩
        · obtain ⟨l, hl⟩ := step2Begin_trace debug env gid (req.targetShippingTitle.getD "")
            _ order.shippingLines.head? _ [Step.fetchOrder gid]
          exact ⟨l, by rw [hl]; rfl⟩

theorem runEdit_dry_trace (debug : Bool) (req : EditRequest) (env : Env) (gid : String)
    (hdry : req.dryRun = true) :
    (runEdit debug req env gid).2 = [Step.fetchOrder gid] := by
  unfold runEdit
  rcases env.fetchResp with m | o
  · rfl
  · rcases o with _ | order
    · rfl
    · dsimp only
      split
      · rfl
      · rw [if_pos hdry]

theorem postAuth_dry_trace (debug : Bool) (req : EditRequest) (env : Env)
    (hdry : req.dryRun = true) :
    (postAuth debug req env).2 = [] ∨
      ∃ g, (postAuth debug req env).2 = [Step.fetchOrder g] := by
  unfold postAuth
  rcases toOrderGid req.orderGid <|> toOrderGid req.orderId with _ | gid
  · left; rfl
  · dsimp only
    split
    · left; rfl
    · right; exact ⟨gid, runEdit_dry_trace debug req env gid hdry⟩

theorem handler_dry_trace (debug : Bool) (rs : List Region) (req : EditRequest) (env : Env)
    (hdry : req.dryRun = true) :
    (handler debug rs req env).2 = [] ∨
      ∃ g, (handler debug rs req env).2 = [Step.fetchOrder g] := by
  unfold handler
  dsimp only
  by_cases hv : isValidShop (req.shopDomain.getD "") = false
  · rw [if_pos hv]; left; rfl
  · rw [if_neg hv]
    rcases byShop rs (req.shopDomain.getD "") with _ | region
    · left; rfl
    · dsimp only
      by_cases hs : region.flowSecret.getD "" ≠ "" ∧
        tscEq req.headerSecret (region.flowSecret.getD "") = false
      · rw [if_pos hs]; left; rfl
      · rw [if_neg hs]; exact postAuth_dry_trace debug req env hdry

theorem strContains_mid (a b c : String) : strContains (a ++ (b ++ c)) b = true := by
  unfold strContains
  rw [String.data_append, String.data_append]
  exact containsSeg_mid a.data b.data c.data

theorem runEdit_to_step2 (debug : Bool) (req : EditRequest) (env : Env) (gid : String)
    (order : Order) (price : Rat)
    (hfetch : env.fetchResp = .data (some order))
    (hprice : computePrice order.shippingLines.head? req.targetShippingPrice = .ok price)
    (hdry : req.dryRun = false) :
    runEdit debug req env gid =
      step2Begin debug env gid (req.targetShippingTitle.getD "") price
        order.shippingLines.head?
        ⟨false, req.shopDomain.getD "", order.name,
          (if order.shippingLines.head?.isSome then "replace" else "add"),
          order.shippingLines.head?.map (fun l => LineOut.mk l.id l.title price),
          ⟨req.targetShippingTitle.getD "", price⟩⟩
        [Step.fetchOrder gid] := by
  unfold runEdit
  rw [hfetch]
  dsimp only
  rw [hprice]
  dsimp only
  rw [if_neg (by rw [hdry]; simp)]

theorem runEdit_dry_ok (debug : Bool) (req : EditRequest) (env : Env) (gid : String)
    (order : Order) (price : Rat)
    (hfetch : env.fetchResp = .data (some order))
    (hprice : computePrice order.shippingLines.head? req.targetShippingPrice = .ok price)
    (hdry : req.dryRun = true) :
    runEdit debug req env gid =
      (.ok ⟨true, req.shopDomain.getD "", order.name,
        (if order.shippingLines.head?.isSome then "replace" else "add"),
        order.shippingLines.head?.map (fun l => LineOut.mk l.id l.title price),
        ⟨req.targetShippingTitle.getD "", price⟩⟩,
       [Step.fetchOrder gid]) := by
  unfold runEdit
  rw [hfetch]
  dsimp only
  rw [hprice]
  dsimp only
  rw [if_pos hdry]

theorem runEdit_price_error (debug : Bool) (req : EditRequest) (env : Env) (gid : String)
    (order : Order) (e : Nat × String × Option String)
    (hfetch : env.fetchResp = .data (some order))
    (hprice : computePrice order.shippingLines.head? req.targetShippingPrice = .error e) :
    runEdit debug req env gid = (errRes debug e.1 e.2.1 e.2.2, [Step.fetchOrder gid]) := by
  unfold runEdit
  rw [hfetch]
  dsimp only
  rw [hprice]

theorem step2_success (debug : Bool) (env : Env) (gid : String) (title : String)
    (price : Rat) (current : Option ShippingLine) (body : OkBody) (t : List Step)
    (cid : String)
    (hbegin : env.beginResp = .data ⟨some cid, []⟩) :
    step2Begin debug env gid title price current body t =
      step3Add debug env cid title price current body (t ++ [Step.beginEdit gid]) := by
  unfold step2Begin
  rw [hbegin]
  dsimp only
  rw [if_neg (by simp)]

theorem step2_userErr (debug : Bool) (env : Env) (gid : String) (title : String)
    (price : Rat) (current : Option ShippingLine) (body : OkBody) (t : List Step)
    (co : Option String) (e : UserError) (es : List UserError)
    (hbegin : env.beginResp = .data ⟨co, e :: es⟩) :
    step2Begin debug env gid title price current body t =
      (userErrorsRes debug "orderEditBegin" (e :: es), t ++ [Step.beginEdit gid]) := by
  unfold step2Begin
  rw [hbegin]
  dsimp only
  rw [if_pos (by simp)]

theorem step2_noCalc (debug : Bool) (env : Env) (gid : String) (title : String)
    (price : Rat) (current : Option ShippingLine) (body : OkBody) (t : List Step)
    (hbegin : env.beginResp = .data ⟨none, []⟩) :
    step2Begin debug env gid title price current body t =
      (errRes debug 500 "Missing calculatedOrderId" none, t ++ [Step.beginEdit gid]) := by
  unfold step2Begin
  rw [hbegin]
  dsimp only
  rw [if_neg (by simp)]

theorem step3_success (debug : Bool) (env : Env) (cid : String) (title : String)
    (price : Rat) (current : Option ShippingLine) (body : OkBody) (t : List Step)
    (aco : Option String)
    (hadd : env.addResp = .data ⟨aco, []⟩) :
    step3Add debug env cid title price current body t =
      step4Remove debug env cid current body (t ++ [Step.addLine cid title price]) := by
  unfold step3Add
  rw [hadd]
  dsimp only
  rw [if_neg (by simp)]

theorem step3_userErr (debug : Bool) (env : Env) (cid : String) (title : String)
    (price : Rat) (current : Option ShippingLine) (body : OkBody) (t : List Step)
    (aco : Option String) (e : UserError) (es : List UserError)
    (hadd : env.addResp = .data ⟨aco, e :: es⟩) :
    step3Add debug env cid title price current body t =
      (userErrorsRes debug "orderEditAddShippingLine" (e :: es),
        t ++ [Step.addLine cid title price]) := by
  unfold step3Add
  rw [hadd]
  dsimp only
  rw [if_pos (by simp)]

theorem step4_none (debug : Bool) (env : Env) (cid : String) (body : OkBody)
    (t : List Step) :
    step4Remove debug env cid none body t = step5Commit debug env cid body t := rfl

theorem step4_some_success (debug : Bool) (env : Env) (cid : String)
    (line : ShippingLine) (body : OkBody) (t : List Step) (rco : Option String)
    (hrem : env.removeResp = .data ⟨rco, []⟩) :
    step4Remove debug env cid (some line) body t =
      step5Commit debug env cid body (t ++ [Step.removeLine cid line.id]) := by
  unfold step4Remove
  rw [hrem]
  dsimp only
  rw [if_neg (by simp)]

theorem step4_userErr (debug : Bool) (env : Env) (cid : String)
    (line : ShippingLine) (body : OkBody) (t : List Step) (rco : Option String)
    (e : UserError) (es : List UserError)
    (hrem : env.removeResp = .data ⟨rco, e :: es⟩) :
    step4Remove debug env cid (some line) body t =
      (userErrorsRes debug "orderEditRemoveShippingLine" (e :: es),
        t ++ [Step.removeLine cid line.id]) := by
  unfold step4Remove
  rw [hrem]
  dsimp only
  rw [if_pos (by simp)]

theorem step5_success (debug : Bool) (env : Env) (cid : String) (body : OkBody)
    (t : List Step) (cco : Option String)
    (hcom : env.commitResp = .data ⟨cco, []⟩) :
    step5Commit debug env cid body t = (.ok body, t ++ [Step.commitEdit cid]) := by
  unfold step5Commit
  rw [hcom]
  dsimp only
  rw [if_neg (by simp)]

theorem step5_userErr (debug : Bool) (env : Env) (cid : String) (body : OkBody)
    (t : List Step) (cco : Option String) (e : UserError) (es : List UserError)
    (hcom : env.commitResp = .data ⟨cco, e :: es⟩) :
    step5Commit debug env cid body t =
      (userErrorsRes debug "orderEditCommit" (e :: es), t ++ [Step.commitEdit cid]) := by
  unfold step5Commit
  rw [hcom]
  dsimp only
  rw [if_pos (by simp)]

/-! Claim theorems. -/

/-- Claim C7: for every request whose `shopDomain` does not satisfy the
storefront-domain regex `[a-z0-9-]+\.myshopify\.com` exactly
(`isValidShop`), the endpoint returns 400 `Missing/invalid shopDomain`
and performs zero gateway calls: the invocation trace is empty. -/
theorem invalid_shopDomain_no_calls (debug : Bool) (rs : List Region)
    (req : EditRequest) (env : Env)
    (h : isValidShop (req.shopDomain.getD "") = false) :
    handler debug rs req env =
      (errRes debug 400 "Missing/invalid shopDomain" req.shopDomain, []) := by
  unfold handler
  dsimp only
  rw [if_pos h]

/-- Witness for C7 at the concrete non-matching domain `evil.com`. -/
theorem invalid_shopDomain_no_calls_witness :
    handler false cRegs cReqBadDom cEnvOk =
      (errRes false 400 "Missing/invalid shopDomain" (some "evil.com"), []) :=
  invalid_shopDomain_no_calls false cRegs cReqBadDom cEnvOk (by decide)

/-- Claim C10: once the domain is valid and resolves to a region with a
configured (non-empty) secret, a header that fails the constant-time
comparison yields 401 `Bad X-Flow-Secret` with an empty gateway trace,
for every order reference and title in the request — i.e. the secret
check runs before the orderGid/orderId and targetShippingTitle
validations, so those requests get 401 rather than their 400s. -/
theorem secret_before_order_validation (debug : Bool) (rs : List Region)
    (req : EditRequest) (env : Env) (dom : String) (region : Region) (sec : String)
    (hdom : req.shopDomain = some dom) (hv : isValidShop dom = true)
    (hreg : byShop rs dom = some region)
    (hs : region.flowSecret = some sec) (hne : sec ≠ "")
    (hbad : tscEq req.headerSecret sec = false) :
    handler debug rs req env = (errRes debug 401 "Bad X-Flow-Secret" none, []) := by
  unfold handler
  rw [hdom]
  simp only [Option.getD_some, hv, hreg, hs]
  simp [hne, hbad]

/-- Witness for C10: a request with a wrong secret, an invalid order
reference and a blank title still receives 401, not 400. -/
theorem secret_before_order_validation_witness :
    handler false sRegs cReqWrongSecret cEnvOk =
      (errRes false 401 "Bad X-Flow-Secret" none, []) :=
  secret_before_order_validation false sRegs cReqWrongSecret cEnvOk
    "shop.myshopify.com" ⟨"UK", "shop.myshopify.com", some "tok", some "s3cret"⟩ "s3cret"
    rfl (by decide) (by decide) rfl (by decide) (by decide)

/-- Claim C6: order-reference canonicalization.  A candidate already
carrying the canonical head is returned unchanged; a non-empty
all-decimal-digits candidate is wrapped into
`gid://shopify/Order/<digits>`; `orderGid` is tried before the
`orderId` fallback; and when both candidates fail, the handler returns
400 `Missing/invalid orderGid/orderId` with an empty gateway trace. -/
theorem order_ref_canonicalization :
    (∀ s : String, strStarts s gidRoot = true → toOrderGid (some s) = some s)
    ∧ (∀ s : String, s ≠ "" → s.data.all Char.isDigit = true →
        toOrderGid (some s) = some (gidRoot ++ s))
    ∧ (∀ (req : EditRequest) (g : String), toOrderGid req.orderGid = some g →
        (toOrderGid req.orderGid <|> toOrderGid req.orderId) = some g)
    ∧ (∀ (debug : Bool) (rs : List Region) (req : EditRequest) (env : Env)
        (dom : String) (region : Region),
        req.shopDomain = some dom → isValidShop dom = true →
        byShop rs dom = some region →
        (region.flowSecret.getD "" = "" ∨
          tscEq req.headerSecret (region.flowSecret.getD "") = true) →
        toOrderGid req.orderGid = none → toOrderGid req.orderId = none →
        handler debug rs req env =
          (errRes debug 400 "Missing/invalid orderGid/orderId" none, [])) := by
  refine ⟨toOrderGid_of_strStarts, toOrderGid_of_digits, ?_, ?_⟩
  · intro req g h
    rw [h]
    rfl
  · intro debug rs req env dom region hdom hv hreg hsec hga hgb
    rw [handler_eq_postAuth debug rs req env dom region hdom hv hreg hsec]
    unfold postAuth
    rw [hga, hgb]
    rfl

/-- Witness for C6: `777` is wrapped into canonical form, and a request
whose two candidates are both invalid is rejected with 400 before any
gateway call. -/
theorem order_ref_canonicalization_witness :
    toOrderGid (some "777") = some (gidRoot ++ "777") ∧
    handler false cRegs cReqBadRefs cEnvOk =
      (errRes false 400 "Missing/invalid orderGid/orderId" none, []) :=
  ⟨order_ref_canonicalization.2.1 "777" (by decide) (by decide),
   order_ref_canonicalization.2.2.2 false cRegs cReqBadRefs cEnvOk
     "shop.myshopify.com" ⟨"UK", "shop.myshopify.com", some "tok", none⟩
     rfl (by decide) (by decide) (Or.inl rfl) (by decide) (by decide)⟩

/-- Claim C9: `toOrderGid` accepts any string that merely begins with
`gid://shopify/Order/` and returns it unchanged — nothing after the
head is checked — so `gid://shopify/Order/` and
`gid://shopify/Order/abc` pass validation, and such a request reaches
the remote fetch (its gateway trace starts with the fetch call for the
unmodified string). -/
theorem gid_head_accepted_unchecked :
    toOrderGid (some "gid://shopify/Order/") = some "gid://shopify/Order/"
    ∧ toOrderGid (some "gid://shopify/Order/abc") = some "gid://shopify/Order/abc"
    ∧ (∀ s : String, strStarts s gidRoot = true → toOrderGid (some s) = some s)
    ∧ (∀ (debug : Bool) (rs : List Region) (req : EditRequest) (env : Env)
        (dom : String) (region : Region) (s : String),
        req.shopDomain = some dom → isValidShop dom = true →
        byShop rs dom = some region →
        (region.flowSecret.getD "" = "" ∨
          tscEq req.headerSecret (region.flowSecret.getD "") = true) →
        req.orderGid = some s → strStarts s gidRoot = true →
        jsTrim (req.targetShippingTitle.getD "") ≠ "" →
        ∃ rest, (handler debug rs req env).2 = Step.fetchOrder s :: rest) := by
  refine ⟨by decide, by decide, toOrderGid_of_strStarts, ?_⟩
  intro debug rs req env dom region s hdom hv hreg hsec hgo hstart htitle
  have hgid : (toOrderGid req.orderGid <|> toOrderGid req.orderId) = some s := by
    rw [hgo, toOrderGid_of_strStarts s hstart]
    rfl
  rw [handler_eq_runEdit debug rs req env dom region s hdom hv hreg hsec hgid htitle]
  exact runEdit_trace_shape debug req env s

/-- Witness for C9: a request whose `orderGid` is
`gid://shopify/Order/abc` reaches the remote fetch with that exact
string. -/
theorem gid_head_accepted_unchecked_witness :
    ∃ rest,
      (handler false cRegs cReqGidAbc cEnvOk).2 =
        Step.fetchOrder "gid://shopify/Order/abc" :: rest :=
  gid_head_accepted_unchecked.2.2.2 false cRegs cReqGidAbc cEnvOk
    "shop.myshopify.com" ⟨"UK", "shop.myshopify.com", some "tok", none⟩
    "gid://shopify/Order/abc"
    rfl (by decide) (by decide) (Or.inl rfl) rfl (by decide) (by decide)

/-- Claim C8: the shared-secret check.  (1) `tscEq` succeeds exactly on
byte-equal UTF-8 encodings of header and secret; (2) an absent header
behaves as the empty string (and the function is total, so it cannot
throw), whose encoding is the length-0 byte string; (3) the number of
byte comparisons performed depends only on the byte lengths of the two
operands, never on their contents or on the position of the first
mismatch (the constant-time property in the cost model of `ctScan`);
(4) when the resolved region has a configured non-empty secret, any
header that is not byte-equal yields 401 `Bad X-Flow-Secret` with an
empty gateway trace; (5) the exactly byte-equal header passes the check
and the handler proceeds with the remaining pipeline. -/
theorem secret_check_behavior :
    (∀ (a : Option String) (b : String),
      tscEq a b = true ↔ utf8Bytes (a.getD "") = utf8Bytes b)
    ∧ (∀ b : String, tscEq none b = tscEq (some "") b)
    ∧ utf8Bytes "" = []
    ∧ (∀ (a a' : Option String) (b b' : String),
        (utf8Bytes (a.getD "")).length = (utf8Bytes (a'.getD "")).length →
        (utf8Bytes b).length = (utf8Bytes b').length →
        tscEqCost a b = tscEqCost a' b')
    ∧ (∀ (debug : Bool) (rs : List Region) (req : EditRequest) (env : Env)
        (dom : String) (region : Region) (sec : String),
        req.shopDomain = some dom → isValidShop dom = true →
        byShop rs dom = some region →
        region.flowSecret = some sec → sec ≠ "" →
        utf8Bytes (req.headerSecret.getD "") ≠ utf8Bytes sec →
        handler debug rs req env = (errRes debug 401 "Bad X-Flow-Secret" none, []))
    ∧ (∀ (debug : Bool) (rs : List Region) (req : EditRequest) (env : Env)
        (dom : String) (region : Region) (sec : String),
        req.shopDomain = some dom → isValidShop dom = true →
        byShop rs dom = some region →
        region.flowSecret = some sec →
        utf8Bytes (req.headerSecret.getD "") = utf8Bytes sec →
        handler debug rs req env = postAuth debug req env) := by
  refine ⟨tscEq_iff_bytes, fun b => rfl, rfl, ?_, ?_, ?_⟩
  · intro a a' b b' ha hb
    simp only [tscEqCost]
    rw [ctScan_snd_eq, ctScan_snd_eq, ha, hb]
  · intro debug rs req env dom region sec hdom hv hreg hs hne hneq
    have hbad : tscEq req.headerSecret sec = false := by
      rw [Bool.eq_false_iff]
      intro hx
      exact hneq ((tscEq_iff_bytes req.headerSecret sec).mp hx)
    unfold handler
    rw [hdom]
    simp only [Option.getD_some, hv, hreg, hs]
    simp [hne, hbad]
  · intro debug rs req env dom region sec hdom hv hreg hs heq
    have ht : tscEq req.headerSecret sec = true := (tscEq_iff_bytes _ _).mpr heq
    unfold handler
    rw [hdom]
    simp only [Option.getD_some, hv, hreg, hs]
    simp [ht]

/-- Witness for C8: equal-length near-miss and honest inputs cost the
same number of byte comparisons, and a concrete wrong-secret request is
rejected with 401 before any gateway call. -/
theorem secret_check_behavior_witness :
    tscEqCost (some "s3creX") "s3cret" = tscEqCost (some "Xs3cre") "s3cret" ∧
    handler true sRegs cReqWrongSecret cEnvOk =
      (errRes true 401 "Bad X-Flow-Secret" none, []) :=
  ⟨secret_check_behavior.2.2.2.1 (some "s3creX") (some "Xs3cre") "s3cret" "s3cret"
      (by decide) (by decide),
   secret_check_behavior.2.2.2.2.1 true sRegs cReqWrongSecret cEnvOk
     "shop.myshopify.com" ⟨"UK", "shop.myshopify.com", some "tok", some "s3cret"⟩ "s3cret"
     rfl (by decide) (by decide) rfl (by decide) (by decide)⟩

/-- Claim C5: when the begin-edit response carries no
`calculatedOrder.id` handle (its user-errors list being empty, which
the source checks first), the handler fails with 500
`Missing calculatedOrderId` and the gateway trace stops at the begin
call — add, remove and commit are never invoked. -/
theorem missing_calculatedOrderId_500 (debug : Bool) (rs : List Region)
    (req : EditRequest) (env : Env) (dom : String) (region : Region) (gid : String)
    (order : Order) (price : Rat)
    (hdom : req.shopDomain = some dom) (hv : isValidShop dom = true)
    (hreg : byShop rs dom = some region)
    (hsec : region.flowSecret.getD "" = "" ∨
      tscEq req.headerSecret (region.flowSecret.getD "") = true)
    (hgid : (toOrderGid req.orderGid <|> toOrderGid req.orderId) = some gid)
    (htitle : jsTrim (req.targetShippingTitle.getD "") ≠ "")
    (hdry : req.dryRun = false)
    (hfetch : env.fetchResp = .data (some order))
    (hprice : computePrice order.shippingLines.head? req.targetShippingPrice = .ok price)
    (hbegin : env.beginResp = .data ⟨none, []⟩) :
    handler debug rs req env =
      (errRes debug 500 "Missing calculatedOrderId" none,
        [Step.fetchOrder gid, Step.beginEdit gid]) := by
  rw [handler_eq_runEdit debug rs req env dom region gid hdom hv hreg hsec hgid htitle,
    runEdit_to_step2 debug req env gid order price hfetch hprice hdry,
    step2_noCalc debug env gid _ price _ _ _ hbegin]
  rfl

/-- Witness for C5 on a concrete oracle whose begin payload is clean
but handle-free. -/
theorem missing_calculatedOrderId_500_witness :
    handler false cRegs cReq cEnvNoCalc =
      (errRes false 500 "Missing calculatedOrderId" none,
        [Step.fetchOrder "gid://shopify/Order/1", Step.beginEdit "gid://shopify/Order/1"]) :=
  missing_calculatedOrderId_500 false cRegs cReq cEnvNoCalc
    "shop.myshopify.com" ⟨"UK", "shop.myshopify.com", some "tok", none⟩
    "gid://shopify/Order/1" cOrder 5
    rfl (by decide) (by decide) (Or.inl rfl) (by decide) (by decide) rfl rfl (by decide) rfl

/-- Claim C3: price determination is asymmetric.  With a current
shipping line the price is the parse of that line's amount and a
non-finite parse is rejected with status 500 (`Invalid existing
shipping price`); without a current line the price is the parse of the
caller-supplied `targetShippingPrice` (0 when absent) and a non-finite
parse is rejected with status 400 (`Invalid targetShippingPrice`); a
price error surfaces through the handler with exactly that status and
a trace that stops at the fetch. -/
theorem price_asymmetry :
    (∀ (line : ShippingLine) (tsp : Option String),
      parseFloat (line.amount.getD "") = none →
      computePrice (some line) tsp =
        .error (500, "Invalid existing shipping price", line.amount))
    ∧ (∀ (line : ShippingLine) (tsp : Option String) (p : Rat),
        parseFloat (line.amount.getD "") = some p →
        computePrice (some line) tsp = .ok p)
    ∧ (∀ raw : String, parseFloat raw = none →
        computePrice none (some raw) =
          .error (400, "Invalid targetShippingPrice", some raw))
    ∧ (∀ (raw : String) (p : Rat), parseFloat raw = some p →
        computePrice none (some raw) = .ok p)
    ∧ computePrice none none = .ok 0
    ∧ (∀ (debug : Bool) (rs : List Region) (req : EditRequest) (env : Env)
        (dom : String) (region : Region) (gid : String) (order : Order)
        (e : Nat × String × Option String),
        req.shopDomain = some dom → isValidShop dom = true →
        byShop rs dom = some region →
        (region.flowSecret.getD "" = "" ∨
          tscEq req.headerSecret (region.flowSecret.getD "") = true) →
        (toOrderGid req.orderGid <|> toOrderGid req.orderId) = some gid →
        jsTrim (req.targetShippingTitle.getD "") ≠ "" →
        env.fetchResp = .data (some order) →
        computePrice order.shippingLines.head? req.targetShippingPrice = .error e →
        handler debug rs req env = (errRes debug e.1 e.2.1 e.2.2, [Step.fetchOrder gid])) := by
  refine ⟨?_, ?_, ?_, ?_, rfl, ?_⟩
  · intro line tsp h
    simp [computePrice, h]
  · intro line tsp p h
    simp [computePrice, h]
  · intro raw h
    simp [computePrice, h]
  · intro raw p h
    simp [computePrice, h]
  · intro debug rs req env dom region gid order e hdom hv hreg hsec hgid htitle hfetch herr
    rw [handler_eq_runEdit debug rs req env dom region gid hdom hv hreg hsec hgid htitle,
      runEdit_price_error debug req env gid order e hfetch herr]

/-- Witness for C3: the unparseable existing amount `oops` yields the
500-tagged error, the unparseable caller price `nope` yields the
400-tagged error, and the latter surfaces through the handler as a 400
response after only the fetch call. -/
theorem price_asymmetry_witness :
    computePrice (some ⟨"sl1", "Standard", some "oops"⟩) none =
      .error (500, "Invalid existing shipping price", some "oops") ∧
    computePrice none (some "nope") =
      .error (400, "Invalid targetShippingPrice", some "nope") ∧
    handler false cRegs cReqBadCallerPrice cEnvOkNoLines =
      (errRes false 400 "Invalid targetShippingPrice" (some "nope"),
        [Step.fetchOrder "gid://shopify/Order/1"]) :=
  ⟨price_asymmetry.1 ⟨"sl1", "Standard", some "oops"⟩ none (by decide),
   price_asymmetry.2.2.1 "nope" (by decide),
   price_asymmetry.2.2.2.2.2 false cRegs cReqBadCallerPrice cEnvOkNoLines
     "shop.myshopify.com" ⟨"UK", "shop.myshopify.com", some "tok", none⟩
     "gid://shopify/Order/1" cOrderNoLines
     (400, "Invalid targetShippingPrice", some "nope")
     rfl (by decide) (by decide) (Or.inl rfl) (by decide) (by decide) rfl (by decide)⟩

/-- Claim C1: for a request against an order with at least one shipping
line, a successful non-dry-run execution performs exactly one begin,
one add, one remove and one commit call, in that order after the
fetch, and returns `mode = "replace"` with `from` carrying the first
existing line's title and parsed price and `to` carrying the target
title with that same existing price. -/
theorem replace_flow_sequence (debug : Bool) (rs : List Region) (req : EditRequest)
    (env : Env) (dom : String) (region : Region) (gid : String) (order : Order)
    (line : ShippingLine) (rest : List ShippingLine) (p : Rat) (cid : String)
    (aco rco cco : Option String)
    (hdom : req.shopDomain = some dom) (hv : isValidShop dom = true)
    (hreg : byShop rs dom = some region)
    (hsec : region.flowSecret.getD "" = "" ∨
      tscEq req.headerSecret (region.flowSecret.getD "") = true)
    (hgid : (toOrderGid req.orderGid <|> toOrderGid req.orderId) = some gid)
    (htitle : jsTrim (req.targetShippingTitle.getD "") ≠ "")
    (hdry : req.dryRun = false)
    (hfetch : env.fetchResp = .data (some order))
    (hlines : order.shippingLines = line :: rest)
    (hp : parseFloat (line.amount.getD "") = some p)
    (hbegin : env.beginResp = .data ⟨some cid, []⟩)
    (hadd : env.addResp = .data ⟨aco, []⟩)
    (hrem : env.removeResp = .data ⟨rco, []⟩)
    (hcom : env.commitResp = .data ⟨cco, []⟩) :
    handler debug rs req env =
      (.ok ⟨false, dom, order.name, "replace", some ⟨line.id, line.title, p⟩,
        ⟨req.targetShippingTitle.getD "", p⟩⟩,
       [Step.fetchOrder gid, Step.beginEdit gid,
        Step.addLine cid (req.targetShippingTitle.getD "") p,
        Step.removeLine cid line.id, Step.commitEdit cid]) := by
  have hcur : order.shippingLines.head? = some line := by rw [hlines]; rfl
  have hprice : computePrice order.shippingLines.head? req.targetShippingPrice = .ok p := by
    rw [hcur]
    simp [computePrice, hp]
  rw [handler_eq_runEdit debug rs req env dom region gid hdom hv hreg hsec hgid htitle,
    runEdit_to_step2 debug req env gid order p hfetch hprice hdry, hcur,
    step2_success debug env gid _ p _ _ _ cid hbegin,
    step3_success debug env cid _ p _ _ _ aco hadd,
    step4_some_success debug env cid line _ _ rco hrem,
    step5_success debug env cid _ _ cco hcom, hdom]
  simp

/-- Witness for C1 on the concrete round-trip: `Standard` at `5.00`
replaced by `DHL_PAKET::Standard` at the same price, with the exact
five-call trace. -/
theorem replace_flow_sequence_witness :
    handler false cRegs cReq cEnvOk =
      (.ok ⟨false, "shop.myshopify.com", "#1001", "replace",
        some ⟨"sl1", "Standard", 5⟩, ⟨"DHL_PAKET::Standard", 5⟩⟩,
       [Step.fetchOrder "gid://shopify/Order/1", Step.beginEdit "gid://shopify/Order/1",
        Step.addLine "calc1" "DHL_PAKET::Standard" 5,
        Step.removeLine "calc1" "sl1", Step.commitEdit "calc1"]) :=
  replace_flow_sequence false cRegs cReq cEnvOk
    "shop.myshopify.com" ⟨"UK", "shop.myshopify.com", some "tok", none⟩
    "gid://shopify/Order/1" cOrder ⟨"sl1", "Standard", some "5.00"⟩ [] 5 "calc1"
    none none none
    rfl (by decide) (by decide) (Or.inl rfl) (by decide) (by decide) rfl rfl rfl
    (by decide) rfl rfl rfl rfl

/-- Claim C2: for a valid request with `dryRun` set, the handler
issues zero mutating gateway calls whatever the oracle answers (every
step of its trace is non-mutating; in the successful case the trace is
exactly the initial fetch), the response carries `dryRun := true`, and
its `mode`, `from` and `to` fields are identical to those a live run
computes over the same oracle. -/
theorem dryRun_no_mutations (debug : Bool) (rs : List Region) (req : EditRequest)
    (env : Env) (dom : String) (region : Region) (gid : String) (order : Order)
    (price : Rat) (cid : String) (aco rco cco : Option String)
    (hdom : req.shopDomain = some dom) (hv : isValidShop dom = true)
    (hreg : byShop rs dom = some region)
    (hsec : region.flowSecret.getD "" = "" ∨
      tscEq req.headerSecret (region.flowSecret.getD "") = true)
    (hgid : (toOrderGid req.orderGid <|> toOrderGid req.orderId) = some gid)
    (htitle : jsTrim (req.targetShippingTitle.getD "") ≠ "")
    (hdry : req.dryRun = true)
    (hfetch : env.fetchResp = .data (some order))
    (hprice : computePrice order.shippingLines.head? req.targetShippingPrice = .ok price)
    (hbegin : env.beginResp = .data ⟨some cid, []⟩)
    (hadd : env.addResp = .data ⟨aco, []⟩)
    (hrem : env.removeResp = .data ⟨rco, []⟩)
    (hcom : env.commitResp = .data ⟨cco, []⟩) :
    (∀ (env' : Env) (s : Step), s ∈ (handler debug rs req env').2 → isMutating s = false)
    ∧ handler debug rs req env =
        (.ok ⟨true, dom, order.name,
          (if order.shippingLines.head?.isSome then "replace" else "add"),
          order.shippingLines.head?.map (fun l => LineOut.mk l.id l.title price),
          ⟨req.targetShippingTitle.getD "", price⟩⟩,
         [Step.fetchOrder gid])
    ∧ handler debug rs { req with dryRun := false } env =
        (.ok ⟨false, dom, order.name,
          (if order.shippingLines.head?.isSome then "replace" else "add"),
          order.shippingLines.head?.map (fun l => LineOut.mk l.id l.title price),
          ⟨req.targetShippingTitle.getD "", price⟩⟩,
         [Step.fetchOrder gid, Step.beginEdit gid,
          Step.addLine cid (req.targetShippingTitle.getD "") price] ++
          (match order.shippingLines.head? with
            | some l => [Step.removeLine cid l.id]
            | none => []) ++ [Step.commitEdit cid]) := by
  refine ⟨?_, ?_, ?_⟩
  · intro env' s hs
    rcases handler_dry_trace debug rs req env' hdry with h | ⟨g, h⟩
    · rw [h] at hs
      exact absurd hs (List.not_mem_nil s)
    · rw [h] at hs
      have hss := List.mem_singleton.mp hs
      subst hss
      rfl
  · rw [handler_eq_runEdit debug rs req env dom region gid hdom hv hreg hsec hgid htitle,
      runEdit_dry_ok debug req env gid order price hfetch hprice hdry, hdom]
    rfl
  · rw [handler_eq_runEdit debug rs { req with dryRun := false } env dom region gid hdom hv
        hreg hsec hgid htitle,
      runEdit_to_step2 debug { req with dryRun := false } env gid order price hfetch hprice rfl,
      step2_success debug env gid _ price _ _ _ cid hbegin,
      step3_success debug env cid _ price _ _ _ aco hadd]
    cases hcur : order.shippingLines.head? with
    | none =>
      rw [step4_none, step5_success debug env cid _ _ cco hcom]
      simp [hdom]
    | some line =>
      rw [step4_some_success debug env cid line _ _ rco hrem,
        step5_success debug env cid _ _ cco hcom]
      simp [hdom]

/-- Witness for C2: the concrete dry-run request answers with
`dryRun := true`, the replace preview, and a trace containing only the
fetch. -/
theorem dryRun_no_mutations_witness :
    handler false cRegs cReqDry cEnvOk =
      (.ok ⟨true, "shop.myshopify.com", "#1001", "replace",
        some ⟨"sl1", "Standard", 5⟩, ⟨"DHL_PAKET::Standard", 5⟩⟩,
       [Step.fetchOrder "gid://shopify/Order/1"]) :=
  (dryRun_no_mutations false cRegs cReqDry cEnvOk "shop.myshopify.com"
    ⟨"UK", "shop.myshopify.com", some "tok", none⟩ "gid://shopify/Order/1" cOrder 5
    "calc1" none none none
    rfl (by decide) (by decide) (Or.inl rfl) (by decide) (by decide) rfl rfl (by decide)
    rfl rfl rfl rfl).2.1

/-- Counterexample to C4 as stated: with the debug flag off (its
default configuration), a non-empty user-errors list in the begin
response aborts the sequence, but the resulting error response is the
bare 500 `Server error`: the failing step's name `orderEditBegin`
appears nowhere in the response, so the error does not carry the step
name visibly. -/
theorem userErrors_step_name_hidden_cex :
    handler false cRegs cReq cEnvBeginErr =
      (.err 500 "Server error" none,
        [Step.fetchOrder "gid://shopify/Order/1", Step.beginEdit "gid://shopify/Order/1"])
    ∧ respMentions (handler false cRegs cReq cEnvBeginErr).1 "orderEditBegin" = false :=
  ⟨by decide, by decide⟩

/-- Claim C4 (amended): after every mutating call (begin, add, remove,
commit), a non-empty user-errors list in the response payload makes the
orchestrator fail immediately — no subsequent step of the sequence is
invoked — and the thrown error's message carries the failing step's
name; but that name is visible in the HTTP error response (in its
`details` field) only when the debug flag is enabled, the response
otherwise being the generic 500 `Server error`. -/
theorem userErrors_abort_amended (debug : Bool) (rs : List Region) (req : EditRequest)
    (env : Env) (dom : String) (region : Region) (gid : String) (order : Order)
    (price : Rat)
    (hdom : req.shopDomain = some dom) (hv : isValidShop dom = true)
    (hreg : byShop rs dom = some region)
    (hsec : region.flowSecret.getD "" = "" ∨
      tscEq req.headerSecret (region.flowSecret.getD "") = true)
    (hgid : (toOrderGid req.orderGid <|> toOrderGid req.orderId) = some gid)
    (htitle : jsTrim (req.targetShippingTitle.getD "") ≠ "")
    (hdry : req.dryRun = false)
    (hfetch : env.fetchResp = .data (some order))
    (hprice : computePrice order.shippingLines.head? req.targetShippingPrice = .ok price) :
    (∀ (co : Option String) (e : UserError) (es : List UserError),
      env.beginResp = .data ⟨co, e :: es⟩ →
      handler debug rs req env =
        (userErrorsRes debug "orderEditBegin" (e :: es),
          [Step.fetchOrder gid, Step.beginEdit gid]))
    ∧ (∀ (cid : String) (aco : Option String) (e : UserError) (es : List UserError),
        env.beginResp = .data ⟨some cid, []⟩ →
        env.addResp = .data ⟨aco, e :: es⟩ →
        handler debug rs req env =
          (userErrorsRes debug "orderEditAddShippingLine" (e :: es),
            [Step.fetchOrder gid, Step.beginEdit gid,
             Step.addLine cid (req.targetShippingTitle.getD "") price]))
    ∧ (∀ (cid : String) (aco rco : Option String) (line : ShippingLine)
        (rest : List ShippingLine) (e : UserError) (es : List UserError),
        order.shippingLines = line :: rest →
        env.beginResp = .data ⟨some cid, []⟩ →
        env.addResp = .data ⟨aco, []⟩ →
        env.removeResp = .data ⟨rco, e :: es⟩ →
        handler debug rs req env =
          (userErrorsRes debug "orderEditRemoveShippingLine" (e :: es),
            [Step.fetchOrder gid, Step.beginEdit gid,
             Step.addLine cid (req.targetShippingTitle.getD "") price,
             Step.removeLine cid line.id]))
    ∧ (∀ (cid : String) (aco rco cco : Option String) (line : ShippingLine)
        (rest : List ShippingLine) (e : UserError) (es : List UserError),
        order.shippingLines = line :: rest →
        env.beginResp = .data ⟨some cid, []⟩ →
        env.addResp = .data ⟨aco, []⟩ →
        env.removeResp = .data ⟨rco, []⟩ →
        env.commitResp = .data ⟨cco, e :: es⟩ →
        handler debug rs req env =
          (userErrorsRes debug "orderEditCommit" (e :: es),
            [Step.fetchOrder gid, Step.beginEdit gid,
             Step.addLine cid (req.targetShippingTitle.getD "") price,
             Step.removeLine cid line.id, Step.commitEdit cid]))
    ∧ (∀ (d : Bool) (sn : String) (errs : List UserError),
        userErrorsRes d sn errs =
          .err 500 "Server error"
            (if d = true then some ("Error: " ++ userErrMsg sn errs) else none)
        ∧ strContains ("Error: " ++ userErrMsg sn errs) sn = true) := by
  refine ⟨?_, ?_, ?_, ?_, ?_⟩
  · intro co e es hbegin
    rw [handler_eq_runEdit debug rs req env dom region gid hdom hv hreg hsec hgid htitle,
      runEdit_to_step2 debug req env gid order price hfetch hprice hdry,
      step2_userErr debug env gid _ price _ _ _ co e es hbegin]
    rfl
  · intro cid aco e es hbegin hadd
    rw [handler_eq_runEdit debug rs req env dom region gid hdom hv hreg hsec hgid htitle,
      runEdit_to_step2 debug req env gid order price hfetch hprice hdry,
      step2_success debug env gid _ price _ _ _ cid hbegin,
      step3_userErr debug env cid _ price _ _ _ aco e es hadd]
    rfl
  · intro cid aco rco line rest e es hlines hbegin hadd hrem
    have hcur : order.shippingLines.head? = some line := by rw [hlines]; rfl
    rw [handler_eq_runEdit debug rs req env dom region gid hdom hv hreg hsec hgid htitle,
      runEdit_to_step2 debug req env gid order price hfetch hprice hdry, hcur,
      step2_success debug env gid _ price _ _ _ cid hbegin,
      step3_success debug env cid _ price _ _ _ aco hadd,
      step4_userErr debug env cid line _ _ rco e es hrem]
    rfl
  · intro cid aco rco cco line rest e es hlines hbegin hadd hrem hcom
    have hcur : order.shippingLines.head? = some line := by rw [hlines]; rfl
    rw [handler_eq_runEdit debug rs req env dom region gid hdom hv hreg hsec hgid htitle,
      runEdit_to_step2 debug req env gid order price hfetch hprice hdry, hcur,
      step2_success debug env gid _ price _ _ _ cid hbegin,
      step3_success debug env cid _ price _ _ _ aco hadd,
      step4_some_success debug env cid line _ _ rco hrem,
      step5_userErr debug env cid _ _ cco e es hcom]
    rfl
  · intro d sn errs
    have hx : ("Error: " ++ userErrMsg sn errs) ≠ "" := by
      intro h
      have h2 := congrArg String.data h
      rw [String.data_append] at h2
      simp at h2
    constructor
    · cases d
      · simp [userErrorsRes, serverError, errRes]
      · simp [userErrorsRes, serverError, errRes, hx]
    · unfold strContains userErrMsg
      simp only [String.data_append, List.append_assoc]
      exact containsSeg_mid _ _ _

/-- Witness for the amended C4: with debug enabled, the begin-step
user error aborts after the begin call and the step name is carried in
the response details. -/
theorem userErrors_abort_amended_witness :
    handler true cRegs cReq cEnvBeginErr =
      (userErrorsRes true "orderEditBegin" [⟨["x"], "boom"⟩],
        [Step.fetchOrder "gid://shopify/Order/1", Step.beginEdit "gid://shopify/Order/1"]) :=
  (userErrors_abort_amended true cRegs cReq cEnvBeginErr "shop.myshopify.com"
    ⟨"UK", "shop.myshopify.com", some "tok", none⟩ "gid://shopify/Order/1" cOrder 5
    rfl (by decide) (by decide) (Or.inl rfl) (by decide) (by decide) rfl rfl
    (by decide)).1 none ⟨["x"], "boom"⟩ [] rfl

end EditShip
